import Mathlib

/-!
# Verification of the DCF valuation engine

Shallow embedding of `src/models/dcf_model.py` (class `DCFModel`) and of the
inline top-level computation in `src/valuation_dashboard.py`, over exact
rational arithmetic (`ℚ`).  Python's float division by zero raises
`ZeroDivisionError`; we model a computation that raises as `Option.none`.
This covers both the terminal-value division at `wacc = terminal_growth` and
the discount-factor division `1 / (1 + wacc) ** year` at `wacc = -1`.
Inside `sensitivity_analysis` the operands are NumPy `float64` scalars, whose
divisions by zero yield non-finite artifacts (±inf/nan) instead of raising —
both at `w = tg` and at `w = -1`; we likewise model such a non-finite cell as
`none`, since ±inf has no rational value.  Indexing `fcfs[-1]` on an empty
list raises `IndexError`, modelled with `List.getLast?`.
-/

/-- The assumptions record held by `DCFModel.__init__`. -/
structure DCFModel where
  current_revenue : ℚ
  growth_rates : List ℚ
  ebit_margin : ℚ
  tax_rate : ℚ
  wacc : ℚ
  terminal_growth : ℚ
  fcf_conversion : ℚ
deriving Repr, DecidableEq

namespace DCFModel

/-- Helper for `project_revenue`: the loop
`for growth in growth_rates: revenues.append(revenues[-1] * (1 + growth))`,
returning only the appended entries (`revenues[1:]`). -/
def project_revenue_from (prev : ℚ) : List ℚ → List ℚ
  | [] => []
  | g :: gs => prev * (1 + g) :: project_revenue_from (prev * (1 + g)) gs

/-- Embeds `DCFModel.project_revenue`: compound `current_revenue` by each growth rate,
drop year 0. -/
def project_revenue (m : DCFModel) : List ℚ :=
  project_revenue_from m.current_revenue m.growth_rates

/-- Embeds `DCFModel.calculate_ebit`: `[rev * self.ebit_margin for rev in revenues]`. -/
def calculate_ebit (m : DCFModel) (revenues : List ℚ) : List ℚ :=
  revenues.map (fun rev => rev * m.ebit_margin)

/-- Embeds `DCFModel.calculate_nopat`: `[ebit * (1 - self.tax_rate) for ebit in ebits]`. -/
def calculate_nopat (m : DCFModel) (ebits : List ℚ) : List ℚ :=
  ebits.map (fun ebit => ebit * (1 - m.tax_rate))

/-- Embeds `DCFModel.calculate_fcf`: `[nopat * self.fcf_conversion for nopat in nopats]`. -/
def calculate_fcf (m : DCFModel) (nopats : List ℚ) : List ℚ :=
  nopats.map (fun nopat => nopat * m.fcf_conversion)

/-- Embeds `DCFModel.calculate_discount_factors`:
`[(1 / (1 + self.wacc) ** year) for year in range(1, 6)]`.  Here `self.wacc`
is a plain Python float, so at `wacc = -1` the division `1 / 0.0` raises
`ZeroDivisionError` on the first element, modelled as `none`. -/
def calculate_discount_factors (m : DCFModel) : Option (List ℚ) :=
  if 1 + m.wacc = 0 then none
  else some ((List.range 5).map (fun year => 1 / (1 + m.wacc) ^ (year + 1)))

/-- Embeds `DCFModel.calculate_pv_fcf`: `[fcf * df for fcf, df in zip(fcfs, discount_factors)]`.
Python's `zip` truncates to the shorter list, exactly as `List.zipWith`. -/
def calculate_pv_fcf (fcfs discount_factors : List ℚ) : List ℚ :=
  List.zipWith (fun fcf df => fcf * df) fcfs discount_factors

/-- Embeds `DCFModel.calculate_terminal_value`:
`final_fcf * (1 + self.terminal_growth) / (self.wacc - self.terminal_growth)`.
When `wacc = terminal_growth` the Python float division raises
`ZeroDivisionError`, modelled as `none`; there is no other validation, so a
negative denominator (`wacc < terminal_growth`) silently produces a
sign-reversed value. -/
def calculate_terminal_value (m : DCFModel) (final_fcf : ℚ) : Option ℚ :=
  if m.wacc - m.terminal_growth = 0 then none
  else some (final_fcf * (1 + m.terminal_growth) / (m.wacc - m.terminal_growth))

/-- Embeds `DCFModel.calculate_pv_terminal_value`: `terminal_value * final_discount_factor`. -/
def calculate_pv_terminal_value (terminal_value final_discount_factor : ℚ) : ℚ :=
  terminal_value * final_discount_factor

/-- The dict returned by `DCFModel.run_valuation`. -/
structure ValuationResult where
  revenues : List ℚ
  ebits : List ℚ
  nopats : List ℚ
  fcfs : List ℚ
  discount_factors : List ℚ
  pv_fcfs : List ℚ
  terminal_value : ℚ
  pv_terminal_value : ℚ
  pv_forecast_period : ℚ
  enterprise_value : ℚ
deriving Repr, DecidableEq

/-- Embeds `DCFModel.run_valuation`: the full pipeline.  Three Python failure
points are modelled as `none`: the discount-factor division raises at
`wacc = -1`, `fcfs[-1]` raises `IndexError` when `fcfs` is empty, and the
terminal-value division raises when `wacc = terminal_growth`. -/
def run_valuation (m : DCFModel) : Option ValuationResult := do
  let revenues := m.project_revenue
  let ebits := m.calculate_ebit revenues
  let nopats := m.calculate_nopat ebits
  let fcfs := m.calculate_fcf nopats
  let discount_factors ← m.calculate_discount_factors
  let pv_fcfs := calculate_pv_fcf fcfs discount_factors
  let final_fcf ← fcfs.getLast?
  let terminal_value ← m.calculate_terminal_value final_fcf
  let final_df ← discount_factors.getLast?
  let pv_terminal_value := calculate_pv_terminal_value terminal_value final_df
  let pv_forecast_period := pv_fcfs.sum
  let enterprise_value := pv_forecast_period + pv_terminal_value
  some ⟨revenues, ebits, nopats, fcfs, discount_factors, pv_fcfs, terminal_value,
        pv_terminal_value, pv_forecast_period, enterprise_value⟩

/-- One cell of the loop body in `DCFModel.sensitivity_analysis`.  Inside the
loop `w` and `tg` are NumPy `float64` scalars, so the divisions never raise:
at `w = -1` the factors `1 / (1 + w) ** year` are non-finite (inf), and at
`w = tg` the terminal-value division is non-finite (inf/nan); either way the
cell's value is a non-finite artifact with no rational counterpart, modelled
as `none`.  `fcfs[-1]` on an empty list still raises `IndexError`
(`getLast?`). -/
def sensitivity_cell (fcfs : List ℚ) (w tg : ℚ) : Option ℚ := do
  if 1 + w = 0 then none
  else
    let temp_discount_factors := (List.range 5).map (fun year => 1 / (1 + w) ^ (year + 1))
    let temp_pv_fcfs := List.zipWith (fun fcf df => fcf * df) fcfs temp_discount_factors
    let final_fcf ← fcfs.getLast?
    if w - tg = 0 then none
    else
      let temp_terminal_value := final_fcf * (1 + tg) / (w - tg)
      let final_df ← temp_discount_factors.getLast?
      let temp_pv_terminal := temp_terminal_value * final_df
      some (temp_pv_fcfs.sum + temp_pv_terminal)

/-- Embeds `DCFModel.sensitivity_analysis`: FCFs are projected once, before the loop;
`sensitivity_matrix[i, j]` has row `i` indexing `tg_range` and column `j`
indexing `wacc_range`. -/
def sensitivity_analysis (m : DCFModel) (wacc_range tg_range : List ℚ) :
    List (List (Option ℚ)) :=
  let revenues := m.project_revenue
  let ebits := m.calculate_ebit revenues
  let nopats := m.calculate_nopat ebits
  let fcfs := m.calculate_fcf nopats
  tg_range.map (fun tg => wacc_range.map (fun w => sensitivity_cell fcfs w tg))

/-- Embeds `DCFModel.calculate_wacc_sensitivity`: three full valuations (base, WACC
+1pp, WACC −1pp, all other assumptions fixed), then
`(ev_minus - ev_plus) / (2 * base_ev)`.  Python raises `ZeroDivisionError`
when `2 * base_ev = 0`, modelled as `none`. -/
def calculate_wacc_sensitivity (m : DCFModel) : Option (ℚ × ℚ) := do
  let results ← m.run_valuation
  let base_ev := results.enterprise_value
  let model_plus : DCFModel :=
    ⟨m.current_revenue, m.growth_rates, m.ebit_margin,
     m.tax_rate, m.wacc + 1/100, m.terminal_growth, m.fcf_conversion⟩
  let results_plus ← model_plus.run_valuation
  let ev_plus := results_plus.enterprise_value
  let model_minus : DCFModel :=
    ⟨m.current_revenue, m.growth_rates, m.ebit_margin,
     m.tax_rate, m.wacc - 1/100, m.terminal_growth, m.fcf_conversion⟩
  let results_minus ← model_minus.run_valuation
  let ev_minus := results_minus.enterprise_value
  if 2 * base_ev = 0 then none
  else some ((ev_minus - ev_plus) / (2 * base_ev), base_ev)

/-- The FCF series produced by the projection pipeline (the composite
`calculate_fcf (calculate_nopat (calculate_ebit project_revenue))` that both
`run_valuation` and `sensitivity_analysis` compute). -/
def pipeline_fcfs (m : DCFModel) : List ℚ :=
  m.calculate_fcf (m.calculate_nopat (m.calculate_ebit m.project_revenue))

end DCFModel

section DashboardInline

/-!
The second, inline implementation: top-level statements of
`src/valuation_dashboard.py`, lines 134-163, as functions of the sidebar
values.  `revenues` is built by the append loop and sliced `revenues[1:]`,
which is `List.scanl` followed by `drop 1`.
-/

/-- Lines `revenues = [current_revenue]; for ...: revenues.append(revenues[-1] * (1 + growth))`
then `projected_revenues = revenues[1:]`. -/
def dashboard_projected_revenues (current_revenue : ℚ) (growth_rates : List ℚ) : List ℚ :=
  (List.scanl (fun acc growth => acc * (1 + growth)) current_revenue growth_rates).drop 1

/-- Line `ebits = [rev * ebit_margin for rev in projected_revenues]`. -/
def dashboard_ebits (projected_revenues : List ℚ) (ebit_margin : ℚ) : List ℚ :=
  projected_revenues.map (fun rev => rev * ebit_margin)

/-- Line `nopats = [ebit * (1 - tax_rate) for ebit in ebits]`. -/
def dashboard_nopats (ebits : List ℚ) (tax_rate : ℚ) : List ℚ :=
  ebits.map (fun ebit => ebit * (1 - tax_rate))

/-- Line `fcfs = [nopat * fcf_conversion for nopat in nopats]`. -/
def dashboard_fcfs (nopats : List ℚ) (fcf_conversion : ℚ) : List ℚ :=
  nopats.map (fun nopat => nopat * fcf_conversion)

/-- Line `discount_factors = [(1 / (1 + wacc) ** year) for year in range(1, 6)]`.
As in the model class, `wacc` is a plain Python float, so the division raises
`ZeroDivisionError` at `wacc = -1`, modelled as `none`. -/
def dashboard_discount_factors (wacc : ℚ) : Option (List ℚ) :=
  if 1 + wacc = 0 then none
  else some ((List.range 5).map (fun year => 1 / (1 + wacc) ^ (year + 1)))

/-- Line `pv_fcfs = [fcf * df for fcf, df in zip(fcfs, discount_factors)]`. -/
def dashboard_pv_fcfs (fcfs discount_factors : List ℚ) : List ℚ :=
  List.zipWith (fun fcf df => fcf * df) fcfs discount_factors

/-- The whole inline block, lines 134-163, sequenced; results collected in the
same record shape as `run_valuation` for comparison.  The same three Python
failure points (discount-factor division at `wacc = -1`, `fcfs[-1]` on empty,
division by `wacc - terminal_growth = 0`) are `none`. -/
def dashboard_calc (current_revenue : ℚ) (growth_rates : List ℚ)
    (ebit_margin tax_rate wacc terminal_growth fcf_conversion : ℚ) :
    Option DCFModel.ValuationResult := do
  let projected_revenues := dashboard_projected_revenues current_revenue growth_rates
  let ebits := dashboard_ebits projected_revenues ebit_margin
  let nopats := dashboard_nopats ebits tax_rate
  let fcfs := dashboard_fcfs nopats fcf_conversion
  let discount_factors ← dashboard_discount_factors wacc
  let pv_fcfs := dashboard_pv_fcfs fcfs discount_factors
  let final_fcf ← fcfs.getLast?
  if wacc - terminal_growth = 0 then none
  else
    let terminal_value := final_fcf * (1 + terminal_growth) / (wacc - terminal_growth)
    let final_df ← discount_factors.getLast?
    let pv_terminal_value := terminal_value * final_df
    let pv_forecast_period := pv_fcfs.sum
    let enterprise_value := pv_forecast_period + pv_terminal_value
    some ⟨projected_revenues, ebits, nopats, fcfs, discount_factors, pv_fcfs,
          terminal_value, pv_terminal_value, pv_forecast_period, enterprise_value⟩

end DashboardInline

/-! ### Concrete assumption records used for witnesses and counterexamples -/

/-- Base-case record: revenue 100, five 10% growth years, 20% margin, 25% tax,
10% WACC, 3% terminal growth, 80% FCF conversion. -/
def baseModel : DCFModel :=
  ⟨100, [1/10, 1/10, 1/10, 1/10, 1/10], 1/5, 1/4, 1/10, 3/100, 4/5⟩

/-- A record whose discount rate (2%) lies below its terminal growth (3%). -/
def lowRateModel : DCFModel := ⟨100, [0, 0, 0, 0, 0], 1, 0, 1/50, 3/100, 1⟩

/-- Flat 100-FCF record used for the sensitivity sweep evaluation. -/
def flatFcfModel : DCFModel := ⟨100, [0, 0, 0, 0, 0], 1, 0, 1/10, 3/100, 1⟩

/-- Record with `wacc = 3.5%`, so `wacc - 1% = 2.5% < terminal_growth = 3%`. -/
def degeneratePerturbationModel : DCFModel := ⟨100, [0, 0, 0, 0, 0], 1, 0, 7/200, 3/100, 1⟩

/-- Record with an empty growth-rate list. -/
def emptyGrowthModel : DCFModel := ⟨100, [], 1/5, 1/4, 1/10, 3/100, 4/5⟩

/-- Record with a 3-element growth-rate list. -/
def threeYearModel : DCFModel := ⟨100, [1/10, 1/10, 1/10], 1/5, 1/4, 1/10, 3/100, 4/5⟩

/-- The valuation result of `baseModel`, written out in full. -/
def baseResult : DCFModel.ValuationResult :=
  ⟨[110, 121, 1331/10, 14641/100, 161051/1000],
   [22, 121/5, 1331/50, 14641/500, 161051/5000],
   [33/2, 363/20, 3993/200, 43923/2000, 483153/20000],
   [66/5, 363/25, 3993/250, 43923/2500, 483153/25000],
   [10/11, 100/121, 1000/1331, 10000/14641, 100000/161051],
   [12, 12, 12, 12, 12],
   49764759/175000, 1236/7, 60, 1656/7⟩

/-- The valuation result of `threeYearModel`, written out in full. -/
def threeYearResult : DCFModel.ValuationResult :=
  ⟨[110, 121, 1331/10],
   [22, 121/5, 1331/50],
   [33/2, 363/20, 3993/200],
   [66/5, 363/25, 3993/250],
   [10/11, 100/121, 1000/1331, 10000/14641, 100000/161051],
   [12, 12, 12],
   411279/1750, 123600/847, 36, 154092/847⟩

namespace DCFModel

/-! ### Structural lemmas about the pipeline -/

theorem project_revenue_from_length (prev : ℚ) (gs : List ℚ) :
    (project_revenue_from prev gs).length = gs.length := by
  induction gs generalizing prev with
  | nil => rfl
  | cons g gs ih => simp [project_revenue_from, ih]

theorem project_revenue_length (m : DCFModel) :
    m.project_revenue.length = m.growth_rates.length :=
  project_revenue_from_length ..

theorem pipeline_fcfs_length (m : DCFModel) :
    m.pipeline_fcfs.length = m.growth_rates.length := by
  simp [pipeline_fcfs, calculate_fcf, calculate_nopat, calculate_ebit,
    project_revenue_length]

theorem pipeline_fcfs_ne_nil (m : DCFModel) (hg : m.growth_rates ≠ []) :
    m.pipeline_fcfs ≠ [] := by
  intro h
  apply hg
  have := m.pipeline_fcfs_length
  rw [h] at this
  exact List.length_eq_zero.mp this.symm

theorem calculate_discount_factors_eq (m : DCFModel) (hb : 1 + m.wacc ≠ 0) :
    m.calculate_discount_factors =
      some [1 / (1 + m.wacc), 1 / (1 + m.wacc) ^ 2, 1 / (1 + m.wacc) ^ 3,
            1 / (1 + m.wacc) ^ 4, 1 / (1 + m.wacc) ^ 5] := by
  rw [calculate_discount_factors, if_neg hb]
  norm_num [List.range_succ]

/-- Success and shape of `run_valuation`: given a nonempty growth-rate list,
`wacc ≠ -1` and `wacc ≠ terminal_growth`, the valuation succeeds and every
field is the corresponding pipeline value. -/
theorem run_valuation_eq_some (m : DCFModel) (hg : m.growth_rates ≠ [])
    (hb : 1 + m.wacc ≠ 0) (hw : m.wacc - m.terminal_growth ≠ 0) :
    ∃ lf, m.pipeline_fcfs.getLast? = some lf ∧
      m.run_valuation = some
        ⟨m.project_revenue,
         m.calculate_ebit m.project_revenue,
         m.calculate_nopat (m.calculate_ebit m.project_revenue),
         m.pipeline_fcfs,
         [1 / (1 + m.wacc), 1 / (1 + m.wacc) ^ 2, 1 / (1 + m.wacc) ^ 3,
          1 / (1 + m.wacc) ^ 4, 1 / (1 + m.wacc) ^ 5],
         calculate_pv_fcf m.pipeline_fcfs
           [1 / (1 + m.wacc), 1 / (1 + m.wacc) ^ 2, 1 / (1 + m.wacc) ^ 3,
            1 / (1 + m.wacc) ^ 4, 1 / (1 + m.wacc) ^ 5],
         lf * (1 + m.terminal_growth) / (m.wacc - m.terminal_growth),
         lf * (1 + m.terminal_growth) / (m.wacc - m.terminal_growth) * (1 / (1 + m.wacc) ^ 5),
         (calculate_pv_fcf m.pipeline_fcfs
           [1 / (1 + m.wacc), 1 / (1 + m.wacc) ^ 2, 1 / (1 + m.wacc) ^ 3,
            1 / (1 + m.wacc) ^ 4, 1 / (1 + m.wacc) ^ 5]).sum,
         (calculate_pv_fcf m.pipeline_fcfs
           [1 / (1 + m.wacc), 1 / (1 + m.wacc) ^ 2, 1 / (1 + m.wacc) ^ 3,
            1 / (1 + m.wacc) ^ 4, 1 / (1 + m.wacc) ^ 5]).sum +
           lf * (1 + m.terminal_growth) / (m.wacc - m.terminal_growth) * (1 / (1 + m.wacc) ^ 5)⟩ := by
  obtain ⟨lf, hlf⟩ :=
    Option.isSome_iff_exists.mp (List.getLast?_isSome.mpr (m.pipeline_fcfs_ne_nil hg))
  refine ⟨lf, hlf, ?_⟩
  simp only [pipeline_fcfs] at hlf ⊢
  unfold run_valuation
  simp only [calculate_discount_factors_eq m hb, hlf, calculate_terminal_value,
    if_neg hw, calculate_pv_terminal_value, Option.some_bind]
  rfl

/-- Inversion: a successful `run_valuation` implies a nonempty growth-rate
list (no `IndexError` on `fcfs[-1]`), `1 + wacc ≠ 0` (no `ZeroDivisionError`
in the discount factors) and `wacc ≠ terminal_growth` (no `ZeroDivisionError`
in the terminal value). -/
theorem run_valuation_some_conditions (m : DCFModel) (r : ValuationResult)
    (hr : m.run_valuation = some r) :
    m.growth_rates ≠ [] ∧ 1 + m.wacc ≠ 0 ∧ m.wacc - m.terminal_growth ≠ 0 := by
  unfold run_valuation at hr
  simp only [Option.bind_eq_bind'] at hr
  rw [Option.bind_eq_some] at hr
  obtain ⟨dfs, hdfs, hr⟩ := hr
  rw [Option.bind_eq_some] at hr
  obtain ⟨lf, hlf, hr⟩ := hr
  rw [Option.bind_eq_some] at hr
  obtain ⟨tv, htv, hr⟩ := hr
  have hlf' : m.pipeline_fcfs.getLast? = some lf := hlf
  have hne : m.pipeline_fcfs ≠ [] :=
    List.getLast?_isSome.mp (by rw [hlf']; rfl)
  refine ⟨?_, ?_, ?_⟩
  · intro h
    apply hne
    have hlen := m.pipeline_fcfs_length
    rw [h] at hlen
    simpa using List.length_eq_zero.mp (by simpa using hlen)
  · intro hb0
    rw [calculate_discount_factors, if_pos hb0] at hdfs
    exact Option.noConfusion hdfs
  · intro hw0
    rw [calculate_terminal_value, if_pos hw0] at htv
    exact Option.noConfusion htv

end DCFModel


namespace DCFModel

/-! ### C1 -/

/-- C1: the claim states that `calculate_terminal_value` signals an error
whenever `wacc ≤ terminal_growth`.  The code contains no such check: at
`wacc = 2% < terminal_growth = 3%` and `final_fcf = 1` it silently returns the
sign-reversed value `-103` instead of failing (only exact equality
`wacc = terminal_growth` raises, via `ZeroDivisionError`). -/
theorem terminal_value_silently_negative :
    lowRateModel.wacc < lowRateModel.terminal_growth ∧
    lowRateModel.calculate_terminal_value 1 = some (-103) ∧ ((-103 : ℚ) < 0) := by
  refine ⟨by norm_num [lowRateModel], ?_, by norm_num⟩
  norm_num [lowRateModel, calculate_terminal_value]

/-! ### C2 -/

/-- C2: for any assumptions record with a 5-year growth list and
`wacc > terminal_growth`, whenever `run_valuation` returns a result (the
program raises instead at the degenerate `wacc = -1`), that result satisfies
`enterprise_value = pv_forecast_period + pv_terminal_value`,
`pv_forecast_period = sum pv_fcfs`, and `pv_fcfs` is the element-wise product
of the FCF series (of length 5) with the discount factors. -/
theorem enterprise_value_decomposition (m : DCFModel)
    (h5 : m.growth_rates.length = 5) (hgt : m.terminal_growth < m.wacc)
    (r : ValuationResult) (hr : m.run_valuation = some r) :
    r.enterprise_value = r.pv_forecast_period + r.pv_terminal_value ∧
    r.pv_forecast_period = r.pv_fcfs.sum ∧
    r.pv_fcfs = List.zipWith (fun fcf df => fcf * df) r.fcfs r.discount_factors ∧
    r.fcfs.length = 5 := by
  obtain ⟨hg, hb, hw⟩ := run_valuation_some_conditions m r hr
  obtain ⟨lf, hlf, hrun⟩ := m.run_valuation_eq_some hg hb hw
  obtain rfl := Option.some.inj (hr.symm.trans hrun)
  refine ⟨rfl, rfl, rfl, ?_⟩
  rw [pipeline_fcfs_length, h5]

/-- Witness for C2 at the base-case record, whose valuation succeeds with the
explicitly computed `baseResult`. -/
theorem enterprise_value_decomposition_witness :
    baseModel.growth_rates.length = 5 ∧ baseModel.terminal_growth < baseModel.wacc ∧
    baseModel.run_valuation = some baseResult ∧
    (baseResult.enterprise_value =
        baseResult.pv_forecast_period + baseResult.pv_terminal_value ∧
      baseResult.pv_forecast_period = baseResult.pv_fcfs.sum ∧
      baseResult.pv_fcfs = List.zipWith (fun fcf df => fcf * df)
        baseResult.fcfs baseResult.discount_factors ∧
      baseResult.fcfs.length = 5) := by
  have hrun : baseModel.run_valuation = some baseResult := by
    norm_num [baseModel, baseResult, run_valuation, project_revenue,
      project_revenue_from, calculate_ebit, calculate_nopat, calculate_fcf,
      calculate_discount_factors, calculate_pv_fcf, calculate_terminal_value,
      calculate_pv_terminal_value, List.range_succ]
  exact ⟨rfl, by norm_num [baseModel], hrun,
    enterprise_value_decomposition baseModel rfl (by norm_num [baseModel])
      baseResult hrun⟩

/-! ### C4 -/

/-- C4: the claim states an infeasible sweep cell (`rate ≤ growth`) is either
marked with a documented sentinel or the configuration is rejected up front.
The code does neither: sweeping `wacc ∈ {2%, 10%}` against
`terminal_growth = 3%` with flat 100 FCFs, the infeasible cell
`(w = 2%, tg = 3%)` silently receives the plain negative number
`-19974665000/2255067`, while the feasible cell receives its enterprise value;
nothing aborts and no sentinel is produced. -/
theorem sweep_infeasible_cell_silent_negative :
    flatFcfModel.sensitivity_analysis [1/50, 1/10] [3/100] =
      [[some (-19974665000/2255067), some (132487000/102487)]] ∧
    ((-19974665000/2255067 : ℚ) < 0) ∧ ((1/50 : ℚ) < 3/100) := by
  refine ⟨?_, by norm_num, by norm_num⟩
  norm_num [flatFcfModel, sensitivity_analysis, sensitivity_cell, project_revenue,
    project_revenue_from, calculate_ebit, calculate_nopat, calculate_fcf,
    List.range_succ]

/-! ### C6 -/

/-- C6: the claim states `calculate_wacc_sensitivity` fails when
`wacc - 0.01 ≤ terminal_growth`.  The code has no such check: with
`wacc = 3.5%` and `terminal_growth = 3%` (so `wacc - 1% = 2.5% < 3%`) it
returns a numeric pair instead of failing. -/
theorem wacc_sensitivity_no_degeneracy_check :
    degeneratePerturbationModel.wacc - 1/100 <
        degeneratePerturbationModel.terminal_growth ∧
    (degeneratePerturbationModel.calculate_wacc_sensitivity).isSome = true := by
  refine ⟨by norm_num [degeneratePerturbationModel], ?_⟩
  norm_num [degeneratePerturbationModel, calculate_wacc_sensitivity, run_valuation,
    project_revenue, project_revenue_from, calculate_ebit, calculate_nopat,
    calculate_fcf, calculate_discount_factors, calculate_pv_fcf,
    calculate_terminal_value, calculate_pv_terminal_value, List.range_succ]

/-! ### C10 -/

/-- C10 counterexample: the claim says `run_valuation` succeeds for every
growth-rate arity `k`; at `k = 0` (empty list, `wacc ≠ terminal_growth`) the
Python code raises `IndexError` on `fcfs[-1]`, i.e. the embedded valuation is
`none`. -/
theorem run_valuation_empty_growth_fails :
    emptyGrowthModel.growth_rates.length = 0 ∧
    emptyGrowthModel.wacc ≠ emptyGrowthModel.terminal_growth ∧
    emptyGrowthModel.run_valuation = none := by
  refine ⟨rfl, by norm_num [emptyGrowthModel], ?_⟩
  norm_num [emptyGrowthModel, run_valuation, project_revenue, project_revenue_from,
    calculate_ebit, calculate_nopat, calculate_fcf]

/-- C10 (amended): `run_valuation` performs no arity validation on
`growth_rates` — whenever it returns a result for a growth-rate list of any
length `k`, that result has revenue/EBIT/NOPAT/FCF series of length `k`,
exactly 5 discount factors, `pv_fcfs` of length `min k 5` (the zip silently
truncates), terminal value built from the last (year-`k`) FCF, and its present
value discounted by the year-5 factor.  At `k = 0` it never returns a result
(`IndexError` on `fcfs[-1]`, the counterexample above), refuting the original
"succeeds for every k". -/
theorem run_valuation_no_arity_validation (m : DCFModel) (k : ℕ)
    (hk : m.growth_rates.length = k)
    (r : ValuationResult) (hr : m.run_valuation = some r) :
    r.revenues.length = k ∧ r.ebits.length = k ∧ r.nopats.length = k ∧
    r.fcfs.length = k ∧ r.discount_factors.length = 5 ∧
    r.pv_fcfs.length = min k 5 ∧
    (∃ lf, r.fcfs.getLast? = some lf ∧
      r.terminal_value = lf * (1 + m.terminal_growth) / (m.wacc - m.terminal_growth)) ∧
    r.pv_terminal_value = r.terminal_value * (1 / (1 + m.wacc) ^ 5) := by
  obtain ⟨hg, hb, hw⟩ := run_valuation_some_conditions m r hr
  obtain ⟨lf, hlf, hrun⟩ := m.run_valuation_eq_some hg hb hw
  obtain rfl := Option.some.inj (hr.symm.trans hrun)
  have hrev : m.project_revenue.length = k := by rw [project_revenue_length, hk]
  have hfcf : m.pipeline_fcfs.length = k := by rw [pipeline_fcfs_length, hk]
  refine ⟨hrev, ?_, ?_, hfcf, rfl, ?_, ⟨lf, hlf, rfl⟩, rfl⟩
  · simp [calculate_ebit, hrev]
  · simp [calculate_nopat, calculate_ebit, hrev]
  · rw [calculate_pv_fcf, List.length_zipWith, hfcf]
    rfl

/-- Witness for the amended C10 at a 3-year growth list, whose valuation
succeeds with the explicitly computed `threeYearResult`. -/
theorem run_valuation_no_arity_validation_witness :
    threeYearModel.growth_rates.length = 3 ∧
    threeYearModel.run_valuation = some threeYearResult ∧
    (threeYearResult.revenues.length = 3 ∧ threeYearResult.ebits.length = 3 ∧
      threeYearResult.nopats.length = 3 ∧ threeYearResult.fcfs.length = 3 ∧
      threeYearResult.discount_factors.length = 5 ∧
      threeYearResult.pv_fcfs.length = min 3 5 ∧
      (∃ lf, threeYearResult.fcfs.getLast? = some lf ∧
        threeYearResult.terminal_value = lf * (1 + threeYearModel.terminal_growth) /
          (threeYearModel.wacc - threeYearModel.terminal_growth)) ∧
      threeYearResult.pv_terminal_value =
        threeYearResult.terminal_value * (1 / (1 + threeYearModel.wacc) ^ 5)) := by
  have hrun : threeYearModel.run_valuation = some threeYearResult := by
    norm_num [threeYearModel, threeYearResult, run_valuation, project_revenue,
      project_revenue_from, calculate_ebit, calculate_nopat, calculate_fcf,
      calculate_discount_factors, calculate_pv_fcf, calculate_terminal_value,
      calculate_pv_terminal_value, List.range_succ]
  exact ⟨rfl, hrun,
    run_valuation_no_arity_validation threeYearModel 3 rfl threeYearResult hrun⟩

/-! ### C3 -/

/-- The sweep cell evaluated at the base `(wacc, terminal_growth)` pair equals
the base valuation's enterprise value: both present-value the same
already-projected FCF series. -/
theorem sensitivity_cell_eq_enterprise_value (m : DCFModel)
    (hg : m.growth_rates ≠ []) (hb : 1 + m.wacc ≠ 0)
    (hw : m.wacc - m.terminal_growth ≠ 0)
    (r : ValuationResult) (hr : m.run_valuation = some r) :
    sensitivity_cell m.pipeline_fcfs m.wacc m.terminal_growth =
      some r.enterprise_value := by
  obtain ⟨lf, hlf, hrun⟩ := m.run_valuation_eq_some hg hb hw
  obtain rfl := Option.some.inj (hr.symm.trans hrun)
  simp only [sensitivity_cell, if_neg hb, hlf, if_neg hw, Option.some_bind]
  norm_num [calculate_pv_fcf, List.range_succ]

/-- C3: when the base `(wacc, terminal_growth)` coordinate lies on the sweep
grid — `terminal_growth` at row index `i`, `wacc` at column index `j` — and
the base valuation returns a result, the sweep stores at `matrix[i][j]`
exactly that result's enterprise value.  The cell is computed from the FCF
series projected once before the loop, the same series the base valuation
projects. -/
theorem sweep_cell_matches_base_valuation (m : DCFModel)
    (wacc_range tg_range : List ℚ) (i j : ℕ)
    (hi : tg_range[i]? = some m.terminal_growth)
    (hj : wacc_range[j]? = some m.wacc)
    (r : ValuationResult) (hr : m.run_valuation = some r) :
    ∃ row, (m.sensitivity_analysis wacc_range tg_range)[i]? = some row ∧
      row[j]? = some (some r.enterprise_value) := by
  obtain ⟨hg, hb, hw⟩ := run_valuation_some_conditions m r hr
  refine ⟨
    wacc_range.map (fun w => sensitivity_cell m.pipeline_fcfs w m.terminal_growth),
    ?_, ?_⟩
  · show (tg_range.map (fun tg => wacc_range.map
        (fun w => sensitivity_cell m.pipeline_fcfs w tg)))[i]? = _
    rw [List.getElem?_map, hi]
    rfl
  · rw [List.getElem?_map, hj]
    exact congrArg some (sensitivity_cell_eq_enterprise_value m hg hb hw _ hr)

/-- Witness for C3: the base pair `(10%, 3%)` sits at grid coordinates
`(row 0, column 0)` of a one-cell sweep around the base case, whose valuation
succeeds with the explicitly computed `baseResult`. -/
theorem sweep_cell_matches_base_valuation_witness :
    ([(3 : ℚ)/100] : List ℚ)[0]? = some baseModel.terminal_growth ∧
    ([(1 : ℚ)/10] : List ℚ)[0]? = some baseModel.wacc ∧
    baseModel.run_valuation = some baseResult ∧
    ∃ row, (baseModel.sensitivity_analysis [1/10] [3/100])[0]? = some row ∧
      row[0]? = some (some baseResult.enterprise_value) := by
  have hrun : baseModel.run_valuation = some baseResult := by
    norm_num [baseModel, baseResult, run_valuation, project_revenue,
      project_revenue_from, calculate_ebit, calculate_nopat, calculate_fcf,
      calculate_discount_factors, calculate_pv_fcf, calculate_terminal_value,
      calculate_pv_terminal_value, List.range_succ]
  exact ⟨rfl, rfl, hrun,
    sweep_cell_matches_base_valuation baseModel [1/10] [3/100] 0 0 rfl rfl
      baseResult hrun⟩

/-! ### C5 -/

/-- C5: whenever `calculate_wacc_sensitivity` returns `(s, b)`, then `b` is the
base enterprise value and `s = (ev_minus - ev_plus) / (2 * b)`, where
`ev_plus`/`ev_minus` come from full valuations at `wacc ± 0.01` holding every
other assumption — including `terminal_growth` — fixed. -/
theorem wacc_sensitivity_formula (m : DCFModel) (s b : ℚ)
    (h : m.calculate_wacc_sensitivity = some (s, b)) :
    ∃ r rp rm, m.run_valuation = some r ∧
      DCFModel.run_valuation ⟨m.current_revenue, m.growth_rates, m.ebit_margin,
        m.tax_rate, m.wacc + 1/100, m.terminal_growth, m.fcf_conversion⟩ = some rp ∧
      DCFModel.run_valuation ⟨m.current_revenue, m.growth_rates, m.ebit_margin,
        m.tax_rate, m.wacc - 1/100, m.terminal_growth, m.fcf_conversion⟩ = some rm ∧
      b = r.enterprise_value ∧
      s = (rm.enterprise_value - rp.enterprise_value) / (2 * r.enterprise_value) := by
  unfold calculate_wacc_sensitivity at h
  simp only [Option.bind_eq_bind'] at h
  rw [Option.bind_eq_some] at h
  obtain ⟨r, hr, h⟩ := h
  rw [Option.bind_eq_some] at h
  obtain ⟨rp, hrp, h⟩ := h
  rw [Option.bind_eq_some] at h
  obtain ⟨rm, hrm, h⟩ := h
  split_ifs at h with h0
  obtain ⟨hs, hb⟩ := Prod.mk.injEq .. ▸ Option.some.inj h
  exact ⟨r, rp, rm, hr, hrp, hrm, hb.symm, hs.symm⟩

/-- Witness for C5 at the base-case record. -/
theorem wacc_sensitivity_formula_witness :
    baseModel.calculate_wacc_sensitivity =
      some (222607726520130490/1478587388674400469, 1656/7) ∧
    ∃ r rp rm, baseModel.run_valuation = some r ∧
      DCFModel.run_valuation ⟨baseModel.current_revenue, baseModel.growth_rates,
        baseModel.ebit_margin, baseModel.tax_rate, baseModel.wacc + 1/100,
        baseModel.terminal_growth, baseModel.fcf_conversion⟩ = some rp ∧
      DCFModel.run_valuation ⟨baseModel.current_revenue, baseModel.growth_rates,
        baseModel.ebit_margin, baseModel.tax_rate, baseModel.wacc - 1/100,
        baseModel.terminal_growth, baseModel.fcf_conversion⟩ = some rm ∧
      (1656/7 : ℚ) = r.enterprise_value ∧
      (222607726520130490/1478587388674400469 : ℚ) =
        (rm.enterprise_value - rp.enterprise_value) / (2 * r.enterprise_value) :=
  ⟨by norm_num [baseModel, calculate_wacc_sensitivity, run_valuation,
      project_revenue, project_revenue_from, calculate_ebit, calculate_nopat,
      calculate_fcf, calculate_discount_factors, calculate_pv_fcf,
      calculate_terminal_value, calculate_pv_terminal_value, List.range_succ],
   wacc_sensitivity_formula baseModel _ _
     (by norm_num [baseModel, calculate_wacc_sensitivity, run_valuation,
      project_revenue, project_revenue_from, calculate_ebit, calculate_nopat,
      calculate_fcf, calculate_discount_factors, calculate_pv_fcf,
      calculate_terminal_value, calculate_pv_terminal_value, List.range_succ])⟩

/-! ### C7 -/

theorem project_revenue_from_get_zero (prev : ℚ) (gs : List ℚ) :
    (project_revenue_from prev gs)[0]? = (gs[0]?).map (fun g => prev * (1 + g)) := by
  cases gs <;> simp [project_revenue_from]

theorem project_revenue_from_get_succ (gs : List ℚ) :
    ∀ (prev : ℚ) (i : ℕ) (p g : ℚ),
      (project_revenue_from prev gs)[i]? = some p → gs[i + 1]? = some g →
      (project_revenue_from prev gs)[i + 1]? = some (p * (1 + g)) := by
  induction gs with
  | nil => intro prev i p g hp _; simp [project_revenue_from] at hp
  | cons g0 gs ih =>
    intro prev i p g hp hg
    cases i with
    | zero =>
      simp only [project_revenue_from, List.getElem?_cons_zero,
        List.getElem?_cons_succ, Option.some.injEq] at hp hg ⊢
      rw [project_revenue_from_get_zero, hg]
      simp [hp]
    | succ n =>
      simp only [project_revenue_from, List.getElem?_cons_succ] at hp hg ⊢
      exact ih (prev * (1 + g0)) n p g hp hg

/-- C7: for a 5-element growth-rate sequence the projected revenue series has
exactly 5 entries; entry 0 is `current_revenue * (1 + growth_rates[0])`
(year 0 itself is excluded from the output) and each later entry is the
previous entry times `1 + growth_rates[i]`; EBIT, NOPAT and FCF are the
element-wise products with `ebit_margin`, `1 - tax_rate` and
`fcf_conversion`. -/
theorem projection_contract (m : DCFModel) (h5 : m.growth_rates.length = 5) :
    m.project_revenue.length = 5 ∧
    (∀ g, m.growth_rates[0]? = some g →
      m.project_revenue[0]? = some (m.current_revenue * (1 + g))) ∧
    (∀ i p g, m.project_revenue[i]? = some p → m.growth_rates[i + 1]? = some g →
      m.project_revenue[i + 1]? = some (p * (1 + g))) ∧
    (∀ (revenues : List ℚ) (i : ℕ), (m.calculate_ebit revenues)[i]? =
      (revenues[i]?).map (fun rev => rev * m.ebit_margin)) ∧
    (∀ (ebits : List ℚ) (i : ℕ), (m.calculate_nopat ebits)[i]? =
      (ebits[i]?).map (fun ebit => ebit * (1 - m.tax_rate))) ∧
    (∀ (nopats : List ℚ) (i : ℕ), (m.calculate_fcf nopats)[i]? =
      (nopats[i]?).map (fun nopat => nopat * m.fcf_conversion)) := by
  refine ⟨by rw [project_revenue_length, h5], ?_, ?_, ?_, ?_, ?_⟩
  · intro g hg
    rw [project_revenue, project_revenue_from_get_zero, hg]
    rfl
  · intro i p g hp hg
    exact project_revenue_from_get_succ _ _ _ _ _ hp hg
  · intro revenues i; simp [calculate_ebit]
  · intro ebits i; simp [calculate_nopat]
  · intro nopats i; simp [calculate_fcf]

/-- Witness for C7 at the base-case record. -/
theorem projection_contract_witness :
    baseModel.growth_rates.length = 5 ∧
    (baseModel.project_revenue.length = 5 ∧
    (∀ g, baseModel.growth_rates[0]? = some g →
      baseModel.project_revenue[0]? = some (baseModel.current_revenue * (1 + g))) ∧
    (∀ i p g, baseModel.project_revenue[i]? = some p →
      baseModel.growth_rates[i + 1]? = some g →
      baseModel.project_revenue[i + 1]? = some (p * (1 + g))) ∧
    (∀ (revenues : List ℚ) (i : ℕ), (baseModel.calculate_ebit revenues)[i]? =
      (revenues[i]?).map (fun rev => rev * baseModel.ebit_margin)) ∧
    (∀ (ebits : List ℚ) (i : ℕ), (baseModel.calculate_nopat ebits)[i]? =
      (ebits[i]?).map (fun ebit => ebit * (1 - baseModel.tax_rate))) ∧
    (∀ (nopats : List ℚ) (i : ℕ), (baseModel.calculate_fcf nopats)[i]? =
      (nopats[i]?).map (fun nopat => nopat * baseModel.fcf_conversion))) :=
  ⟨rfl, projection_contract baseModel rfl⟩

end DCFModel

/-! ### C9 -/

theorem scanl_growth_eq_cons_project (prev : ℚ) (gs : List ℚ) :
    List.scanl (fun acc growth => acc * (1 + growth)) prev gs =
      prev :: DCFModel.project_revenue_from prev gs := by
  induction gs generalizing prev with
  | nil => rfl
  | cons g gs ih => simp [List.scanl, DCFModel.project_revenue_from, ih]

theorem dashboard_projected_revenues_eq (cur : ℚ) (gs : List ℚ) :
    dashboard_projected_revenues cur gs = DCFModel.project_revenue_from cur gs := by
  simp [dashboard_projected_revenues, scanl_growth_eq_cons_project]

/-- C9: the inline dashboard computation and the reusable
`DCFModel.run_valuation` pipeline agree on identical assumption values — every
intermediate series (revenue, EBIT, NOPAT, FCF, discount factors, per-year
PVs), the terminal value, its present value, the forecast-period PV and the
enterprise value coincide, including the failure cases. -/
theorem dashboard_matches_run_valuation (cur : ℚ) (gs : List ℚ)
    (margin tax wacc tg conv : ℚ) :
    dashboard_calc cur gs margin tax wacc tg conv =
      DCFModel.run_valuation ⟨cur, gs, margin, tax, wacc, tg, conv⟩ := by
  unfold dashboard_calc DCFModel.run_valuation
  simp only [dashboard_projected_revenues_eq, dashboard_ebits, dashboard_nopats,
    dashboard_fcfs, dashboard_discount_factors, dashboard_pv_fcfs,
    DCFModel.project_revenue, DCFModel.calculate_ebit, DCFModel.calculate_nopat,
    DCFModel.calculate_fcf, DCFModel.calculate_discount_factors,
    DCFModel.calculate_pv_fcf, DCFModel.calculate_terminal_value,
    DCFModel.calculate_pv_terminal_value]
  by_cases hb : 1 + wacc = 0
  · simp [hb]
  · simp only [if_neg hb, Option.bind_eq_bind', Option.some_bind]
    cases hL : (((DCFModel.project_revenue_from cur gs).map (fun rev => rev * margin)).map
        (fun ebit => ebit * (1 - tax))).map (fun nopat => nopat * conv) |>.getLast? with
    | none => rfl
    | some lf =>
      by_cases hw : wacc - tg = 0 <;> simp [hL, hw]

/-! ### C8 -/

namespace DCFModel

/-- Closed form of the enterprise value produced by `run_valuation` on a
5-element growth list: five discounted FCF terms plus the discounted terminal
value. -/
theorem run_valuation_ev_5 (cur g1 g2 g3 g4 g5 margin tax w tg conv : ℚ)
    (hb : 1 + w ≠ 0) (hw : w - tg ≠ 0) :
    ∃ r, DCFModel.run_valuation ⟨cur, [g1, g2, g3, g4, g5], margin, tax, w, tg, conv⟩
        = some r ∧
      r.enterprise_value =
        cur * (1 + g1) * margin * (1 - tax) * conv * (1 / (1 + w)) +
        (cur * (1 + g1) * (1 + g2) * margin * (1 - tax) * conv * (1 / (1 + w) ^ 2) +
        (cur * (1 + g1) * (1 + g2) * (1 + g3) * margin * (1 - tax) * conv * (1 / (1 + w) ^ 3) +
        (cur * (1 + g1) * (1 + g2) * (1 + g3) * (1 + g4) * margin * (1 - tax) * conv * (1 / (1 + w) ^ 4) +
        (cur * (1 + g1) * (1 + g2) * (1 + g3) * (1 + g4) * (1 + g5) * margin * (1 - tax) * conv * (1 / (1 + w) ^ 5) + 0)))) +
        cur * (1 + g1) * (1 + g2) * (1 + g3) * (1 + g4) * (1 + g5) * margin * (1 - tax) * conv * (1 + tg) / (w - tg) * (1 / (1 + w) ^ 5) := by
  obtain ⟨lf, hlf, hrun⟩ :=
    DCFModel.run_valuation_eq_some ⟨cur, [g1, g2, g3, g4, g5], margin, tax, w, tg, conv⟩
      (by simp) hb hw
  have hfcfs : DCFModel.pipeline_fcfs ⟨cur, [g1, g2, g3, g4, g5], margin, tax, w, tg, conv⟩ =
      [cur * (1 + g1) * margin * (1 - tax) * conv,
       cur * (1 + g1) * (1 + g2) * margin * (1 - tax) * conv,
       cur * (1 + g1) * (1 + g2) * (1 + g3) * margin * (1 - tax) * conv,
       cur * (1 + g1) * (1 + g2) * (1 + g3) * (1 + g4) * margin * (1 - tax) * conv,
       cur * (1 + g1) * (1 + g2) * (1 + g3) * (1 + g4) * (1 + g5) * margin * (1 - tax) * conv] := by
    simp [pipeline_fcfs, project_revenue, project_revenue_from,
      calculate_ebit, calculate_nopat, calculate_fcf]
  rw [hfcfs] at hlf
  have hlf' : lf = cur * (1 + g1) * (1 + g2) * (1 + g3) * (1 + g4) * (1 + g5) * margin * (1 - tax) * conv := by
    exact (Option.some.inj hlf).symm
  refine ⟨_, hrun, ?_⟩
  show (calculate_pv_fcf _ _).sum + lf * (1 + tg) / (w - tg) * (1 / (1 + w) ^ 5) = _
  rw [hfcfs, hlf']
  show _ + _ = _
  norm_num [calculate_pv_fcf]

end DCFModel

namespace DCFModel

set_option maxHeartbeats 1000000 in
/-- C8: over valid assumptions (positive revenue and growth factors, positive
margin and conversion, tax rate in `[0,1)`), raising the WACC with everything
else fixed (staying above `terminal_growth`) strictly lowers the enterprise
value, and raising `terminal_growth` with everything else fixed (staying below
the WACC) strictly raises it. -/
theorem enterprise_value_monotone (cur g1 g2 g3 g4 g5 margin tax conv : ℚ)
    (hcur : 0 < cur) (hg1 : -1 < g1) (hg2 : -1 < g2) (hg3 : -1 < g3) (hg4 : -1 < g4)
    (hg5 : -1 < g5) (hm : 0 < margin) (ht0 : 0 ≤ tax) (ht1 : tax < 1) (hc : 0 < conv) :
    (∀ w1 w2 tg : ℚ, -1 < tg → tg < w1 → w1 < w2 →
      ∃ r1 r2,
        DCFModel.run_valuation ⟨cur, [g1, g2, g3, g4, g5], margin, tax, w1, tg, conv⟩ = some r1 ∧
        DCFModel.run_valuation ⟨cur, [g1, g2, g3, g4, g5], margin, tax, w2, tg, conv⟩ = some r2 ∧
        r2.enterprise_value < r1.enterprise_value) ∧
    (∀ w tg1 tg2 : ℚ, -1 < tg1 → tg1 < tg2 → tg2 < w →
      ∃ r1 r2,
        DCFModel.run_valuation ⟨cur, [g1, g2, g3, g4, g5], margin, tax, w, tg1, conv⟩ = some r1 ∧
        DCFModel.run_valuation ⟨cur, [g1, g2, g3, g4, g5], margin, tax, w, tg2, conv⟩ = some r2 ∧
        r1.enterprise_value < r2.enterprise_value) := by
  have hp1 : (0:ℚ) < 1 + g1 := by linarith
  have hp2 : (0:ℚ) < 1 + g2 := by linarith
  have hp3 : (0:ℚ) < 1 + g3 := by linarith
  have hp4 : (0:ℚ) < 1 + g4 := by linarith
  have hp5 : (0:ℚ) < 1 + g5 := by linarith
  have htx : (0:ℚ) < 1 - tax := by linarith
  have hF1 : 0 < cur * (1 + g1) * margin * (1 - tax) * conv :=
    mul_pos (mul_pos (mul_pos (mul_pos hcur hp1) hm) htx) hc
  have hF2 : 0 < cur * (1 + g1) * (1 + g2) * margin * (1 - tax) * conv :=
    mul_pos (mul_pos (mul_pos (mul_pos (mul_pos hcur hp1) hp2) hm) htx) hc
  have hF3 : 0 < cur * (1 + g1) * (1 + g2) * (1 + g3) * margin * (1 - tax) * conv :=
    mul_pos (mul_pos (mul_pos (mul_pos (mul_pos (mul_pos hcur hp1) hp2) hp3) hm) htx) hc
  have hF4 : 0 < cur * (1 + g1) * (1 + g2) * (1 + g3) * (1 + g4) * margin * (1 - tax) * conv :=
    mul_pos (mul_pos (mul_pos (mul_pos (mul_pos (mul_pos (mul_pos hcur hp1) hp2) hp3) hp4) hm) htx) hc
  have hF5 : 0 < cur * (1 + g1) * (1 + g2) * (1 + g3) * (1 + g4) * (1 + g5) * margin * (1 - tax) * conv :=
    mul_pos (mul_pos (mul_pos (mul_pos (mul_pos (mul_pos (mul_pos (mul_pos hcur hp1) hp2) hp3) hp4) hp5) hm) htx) hc
  constructor
  · intro w1 w2 tg htg h1 h2
    have h1' : tg < w2 := lt_trans h1 h2
    have hb1 : (0:ℚ) < 1 + w1 := by linarith
    have hb2 : (0:ℚ) < 1 + w2 := by linarith
    obtain ⟨r1, hr1, he1⟩ := run_valuation_ev_5 cur g1 g2 g3 g4 g5 margin tax w1 tg conv
      (ne_of_gt hb1) (sub_ne_zero.mpr (ne_of_gt h1))
    obtain ⟨r2, hr2, he2⟩ := run_valuation_ev_5 cur g1 g2 g3 g4 g5 margin tax w2 tg conv
      (ne_of_gt hb2) (sub_ne_zero.mpr (ne_of_gt h1'))
    refine ⟨r1, r2, hr1, hr2, ?_⟩
    rw [he1, he2]
    have hw12 : 1 + w1 < 1 + w2 := by linarith
    have hpow : ∀ n : ℕ, n ≠ 0 → 1 / (1 + w2) ^ n < 1 / (1 + w1) ^ n := fun n hn =>
      one_div_lt_one_div_of_lt (pow_pos hb1 n) (pow_lt_pow_left₀ hw12 hb1.le hn)
    have hpow1 : 1 / (1 + w2) < 1 / (1 + w1) := one_div_lt_one_div_of_lt hb1 hw12
    have hT :
        cur * (1 + g1) * (1 + g2) * (1 + g3) * (1 + g4) * (1 + g5) * margin * (1 - tax) * conv
            * (1 + tg) / (w2 - tg) * (1 / (1 + w2) ^ 5) <
        cur * (1 + g1) * (1 + g2) * (1 + g3) * (1 + g4) * (1 + g5) * margin * (1 - tax) * conv
            * (1 + tg) / (w1 - tg) * (1 / (1 + w1) ^ 5) := by
      rw [div_mul_div_comm, div_mul_div_comm, mul_one]
      apply div_lt_div_of_pos_left (mul_pos hF5 (by linarith : (0:ℚ) < 1 + tg))
        (mul_pos (by linarith : (0:ℚ) < w1 - tg) (pow_pos hb1 5))
      exact mul_lt_mul'' (by linarith) (pow_lt_pow_left₀ hw12 hb1.le (by norm_num))
        (by linarith) (pow_pos hb1 5).le
    exact add_lt_add
      (add_lt_add (mul_lt_mul_of_pos_left hpow1 hF1)
        (add_lt_add (mul_lt_mul_of_pos_left (hpow 2 (by norm_num)) hF2)
          (add_lt_add (mul_lt_mul_of_pos_left (hpow 3 (by norm_num)) hF3)
            (add_lt_add (mul_lt_mul_of_pos_left (hpow 4 (by norm_num)) hF4)
              (add_lt_add_right (mul_lt_mul_of_pos_left (hpow 5 (by norm_num)) hF5) 0)))))
      hT
  · intro w tg1 tg2 htg1 h12 h2w
    have h1w : tg1 < w := lt_trans h12 h2w
    have hbw : (0:ℚ) < 1 + w := by linarith
    obtain ⟨r1, hr1, he1⟩ := run_valuation_ev_5 cur g1 g2 g3 g4 g5 margin tax w tg1 conv
      (ne_of_gt hbw) (sub_ne_zero.mpr (ne_of_gt h1w))
    obtain ⟨r2, hr2, he2⟩ := run_valuation_ev_5 cur g1 g2 g3 g4 g5 margin tax w tg2 conv
      (ne_of_gt hbw) (sub_ne_zero.mpr (ne_of_gt h2w))
    refine ⟨r1, r2, hr1, hr2, ?_⟩
    rw [he1, he2]
    apply add_lt_add_left
    set q := cur * (1 + g1) * (1 + g2) * (1 + g3) * (1 + g4) * (1 + g5) * margin * (1 - tax) * conv with hq
    simp only [div_mul_div_comm, mul_one]
    rw [div_lt_div_iff₀ (mul_pos (by linarith : (0:ℚ) < w - tg1) (pow_pos hbw 5))
      (mul_pos (by linarith : (0:ℚ) < w - tg2) (pow_pos hbw 5))]
    have key : (1 + tg1) * (w - tg2) < (1 + tg2) * (w - tg1) := by
      have pos : 0 < (tg2 - tg1) * (1 + w) := mul_pos (by linarith) hbw
      have expand : (1 + tg2) * (w - tg1) - (1 + tg1) * (w - tg2) =
          (tg2 - tg1) * (1 + w) := by ring
      linarith [pos, expand]
    calc q * (1 + tg1) * ((w - tg2) * (1 + w) ^ 5)
        = (q * (1 + w) ^ 5) * ((1 + tg1) * (w - tg2)) := by ring
      _ < (q * (1 + w) ^ 5) * ((1 + tg2) * (w - tg1)) :=
          mul_lt_mul_of_pos_left key (mul_pos hF5 (pow_pos hbw 5))
      _ = q * (1 + tg2) * ((w - tg1) * (1 + w) ^ 5) := by ring


/-- Witness for C8: concrete strict decrease in WACC and strict increase in
terminal growth around the base-case numbers. -/
theorem enterprise_value_monotone_witness :
    ((0:ℚ) < 100 ∧ ((-1:ℚ) < 1/10) ∧ (0:ℚ) < 1/5 ∧ (0:ℚ) ≤ 1/4 ∧ ((1:ℚ)/4 < 1) ∧
      (0:ℚ) < 4/5 ∧ ((-1:ℚ) < 3/100) ∧ ((3:ℚ)/100 < 1/10) ∧ ((1:ℚ)/10 < 2/10) ∧
      ((3:ℚ)/100 < 4/100) ∧ ((4:ℚ)/100 < 1/10)) ∧
    (∃ r1 r2,
      DCFModel.run_valuation ⟨100, [1/10, 1/10, 1/10, 1/10, 1/10], 1/5, 1/4, 1/10, 3/100, 4/5⟩ = some r1 ∧
      DCFModel.run_valuation ⟨100, [1/10, 1/10, 1/10, 1/10, 1/10], 1/5, 1/4, 2/10, 3/100, 4/5⟩ = some r2 ∧
      r2.enterprise_value < r1.enterprise_value) ∧
    (∃ r1 r2,
      DCFModel.run_valuation ⟨100, [1/10, 1/10, 1/10, 1/10, 1/10], 1/5, 1/4, 1/10, 3/100, 4/5⟩ = some r1 ∧
      DCFModel.run_valuation ⟨100, [1/10, 1/10, 1/10, 1/10, 1/10], 1/5, 1/4, 1/10, 4/100, 4/5⟩ = some r2 ∧
      r1.enterprise_value < r2.enterprise_value) :=
  ⟨⟨by norm_num, by norm_num, by norm_num, by norm_num, by norm_num, by norm_num,
    by norm_num, by norm_num, by norm_num, by norm_num, by norm_num⟩,
   (enterprise_value_monotone 100 (1/10) (1/10) (1/10) (1/10) (1/10) (1/5) (1/4) (4/5)
      (by norm_num) (by norm_num) (by norm_num) (by norm_num) (by norm_num) (by norm_num)
      (by norm_num) (by norm_num) (by norm_num) (by norm_num)).1
     (1/10) (2/10) (3/100) (by norm_num) (by norm_num) (by norm_num),
   (enterprise_value_monotone 100 (1/10) (1/10) (1/10) (1/10) (1/10) (1/5) (1/4) (4/5)
      (by norm_num) (by norm_num) (by norm_num) (by norm_num) (by norm_num) (by norm_num)
      (by norm_num) (by norm_num) (by norm_num) (by norm_num)).2
     (1/10) (3/100) (4/100) (by norm_num) (by norm_num) (by norm_num)⟩

end DCFModel

section Sanity

/-- The specification scenario, checked numerically: year-5 revenue is
`100 × 1.15 × 1.12 × 1.10 × 1.08 × 1.06`. -/
theorem scenario_year5_revenue :
    (DCFModel.project_revenue
      ⟨100, [15/100, 12/100, 10/100, 8/100, 6/100], 20/100, 25/100, 10/100, 3/100, 80/100⟩).getLast?
      = some (100 * (115/100) * (112/100) * (110/100) * (108/100) * (106/100)) := by
  norm_num [DCFModel.project_revenue, DCFModel.project_revenue_from]

end Sanity
